import Mathlib

/-!
Shallow embedding of the cert-manager webhook for Hetzner DNS (src/main.go).

HTTP interactions are modelled by an environment record that fixes the
outcome of each network call (transport failure, HTTP status, decoded JSON
body); `Present` and `CleanUp` are then pure functions from a challenge
request and such an environment to an outcome together with the ordered
list of provider-API requests they issue.
-/

namespace HetznerWebhook

/-- Model of Go `strings.TrimSuffix s suf`: if `suf` is a suffix of `s`,
return `s` with that one copy of `suf` removed from the end, else `s`
unchanged (`main.go` uses it in `getDomainAndEntry`). -/
def trimSuffix (s suf : String) : String :=
  if suf.data.isSuffixOf s.data then
    String.mk (s.data.take (s.data.length - suf.data.length))
  else s

/-- A DNS zone as decoded from the provider response (`Zone` in `main.go`):
provider-assigned id and apex name. -/
structure Zone where
  zoneID : String
  name : String
deriving DecidableEq, Repr

/-- A DNS record as decoded from / serialized to the provider API
(`Entry` in `main.go`). The Go struct tags are, in order:
`id,omitempty`, `name`, `ttl`, `type`, `value`, `zone_id`. -/
structure Entry where
  id : String
  name : String
  ttl : Int
  type : String
  value : String
  zoneID : String
deriving DecidableEq, Repr

/-- The typed solver configuration (`hetznerDNSProviderConfig`): one API key. -/
structure hetznerDNSProviderConfig where
  apiKey : String
deriving DecidableEq, Repr

/-- The raw decoded configuration (`hetznerDNSProviderConfigOpts`):
a secret reference (name, key) and an optional inline API key. -/
structure hetznerDNSProviderConfigOpts where
  secretRefName : String
  secretRefKey : String
  apiKey : String
deriving DecidableEq, Repr

/-- Environment for `loadConfig` when the challenge carries a non-nil config
payload: the outcome of `json.Unmarshal` on the raw bytes and the outcome of
the cluster-secret lookup `getApiKeyFromSecret`. -/
structure ConfigPayload where
  unmarshal : Except String hetznerDNSProviderConfigOpts
  secretKey : Except String String

/-- Model of `loadConfig` (`main.go:358-379`). A nil payload yields the
zero-value config (empty API key) and no error; otherwise the raw JSON is
unmarshalled, an inline non-empty API key wins, and failing that the key is
fetched from the referenced secret. -/
def loadConfig : Option ConfigPayload → Except String hetznerDNSProviderConfig
  | none => .ok ⟨""⟩
  | some p =>
    match p.unmarshal with
    | .error e => .error ("error decoding solver config: " ++ e)
    | .ok ref =>
      if ref.apiKey ≠ "" then .ok ⟨ref.apiKey⟩
      else
        match p.secretKey with
        | .error e => .error e
        | .ok key => .ok ⟨key⟩

/-- The challenge request fields the solver reads (`v1alpha1.ChallengeRequest`).
Both `resolvedFQDN` and `resolvedZone` are dot-terminated by protocol
convention. -/
structure ChallengeRequest where
  dnsName : String
  resourceNamespace : String
  resolvedFQDN : String
  resolvedZone : String
  key : String
  config : Option ConfigPayload

/-- Model of `getDomainAndEntry` (`main.go:435-441`): strip the resolved zone
suffix and one trailing dot from the FQDN to get the record label, and one
trailing dot from the zone to get the apex name. -/
def getDomainAndEntry (ch : ChallengeRequest) : String × String :=
  let entry := trimSuffix ch.resolvedFQDN ch.resolvedZone
  let entry2 := trimSuffix entry "."
  let domain := trimSuffix ch.resolvedZone "."
  (entry2, domain)

/-- Lower-case hex digit, as used by Go `encoding/json` `\u00XX` escapes. -/
def hexDigit (n : Nat) : Char :=
  if n < 10 then Char.ofNat (48 + n) else Char.ofNat (87 + n)

/-- Go `encoding/json` escaping of one character inside a JSON string
(`json.Marshal` has HTML escaping on by default). -/
def goEscapeChar (c : Char) : String :=
  if c = '\"' then "\\\""
  else if c = '\\' then "\\\\"
  else if c = '\n' then "\\n"
  else if c = '\r' then "\\r"
  else if c = '\t' then "\\t"
  else if c.toNat < 32 then
    "\\u00" ++ String.mk [hexDigit (c.toNat / 16), hexDigit (c.toNat % 16)]
  else if c = '<' then "\\u003c"
  else if c = '>' then "\\u003e"
  else if c = '&' then "\\u0026"
  else if c.toNat = 8232 then "\\u2028"
  else if c.toNat = 8233 then "\\u2029"
  else String.singleton c

/-- Go `encoding/json` serialization of a string value. -/
def jsonQuote (s : String) : String :=
  "\"" ++ String.join (s.data.map goEscapeChar) ++ "\""

/-- Model of `json.Marshal` on `Entry`: fields in struct order; the `id`
field carries `omitempty`, so an empty id is omitted from the output. -/
def marshalEntry (e : Entry) : String :=
  "\x7b" ++
    (if e.id = "" then "" else "\"id\":" ++ jsonQuote e.id ++ ",") ++
    "\"name\":" ++ jsonQuote e.name ++ "," ++
    "\"ttl\":" ++ toString e.ttl ++ "," ++
    "\"type\":" ++ jsonQuote e.type ++ "," ++
    "\"value\":" ++ jsonQuote e.value ++ "," ++
    "\"zone_id\":" ++ jsonQuote e.zoneID ++
  "\x7d"

/-- A provider-API request issued by the solver, with the API key it carries. -/
inductive Action where
  | getZones (zoneName apiKey : String)
  | postRecord (body apiKey : String)
  | getRecords (zoneID apiKey : String)
  | deleteRecord (recordID apiKey : String)
deriving DecidableEq, Repr

/-- Outcomes of the external calls `Present` makes, fixed up front:
the zone query (transport, status, decoded body) and the record-creation
POST (transport, status). `Present` never reads `postStatus`. -/
structure PresentEnv where
  zonesTransport : Option String
  zonesStatus : Nat
  zonesStatusText : String
  zonesDecode : Except String (List Zone)
  postTransport : Option String
  postStatus : Nat
  postStatusText : String

/-- The ways `Present` can return, one per `return` in `main.go:147-228`. -/
inductive PresentResult where
  | configError (msg : String)
  | transportError (msg : String)
  | unexpectedStatus (status : String)
  | decodeError (msg : String)
  | zoneCountError (count : Nat)
  | postTransportError (msg : String)
  | success
deriving DecidableEq, Repr

/-- Model of `Present` (`main.go:147-228`): load config, split the domain,
GET the zone list (transport / status-200 / decode checks, then a
length-not-1 check), marshal the TXT `Entry` with empty id and TTL 300, and
POST it; a POST transport failure is an error but the POST response status
is ignored. Returns the outcome and the requests issued, in order. -/
def Present (ch : ChallengeRequest) (env : PresentEnv) :
    PresentResult × List Action :=
  match loadConfig ch.config with
  | .error e => (.configError e, [])
  | .ok cfg =>
    let name := (getDomainAndEntry ch).1
    let zone := (getDomainAndEntry ch).2
    let acts := [Action.getZones zone cfg.apiKey]
    match env.zonesTransport with
    | some e => (.transportError e, acts)
    | none =>
      if env.zonesStatus ≠ 200 then
        (.unexpectedStatus env.zonesStatusText, acts)
      else
        match env.zonesDecode with
        | .error e => (.decodeError e, acts)
        | .ok zones =>
          if h : zones.length ≠ 1 then
            (.zoneCountError zones.length, acts)
          else
            let z := zones.get ⟨0, by omega⟩
            let body := marshalEntry ⟨"", name, 300, "TXT", ch.key, z.zoneID⟩
            let acts2 := acts ++ [Action.postRecord body cfg.apiKey]
            match env.postTransport with
            | some e => (.postTransportError e, acts2)
            | none => (.success, acts2)

/-- Outcomes of the external calls `CleanUp` makes: the zone query, the
zone-scoped record listing, and, per record id, the DELETE call.
`CleanUp` never reads the DELETE outcomes. -/
structure CleanUpEnv where
  zonesTransport : Option String
  zonesStatus : Nat
  zonesStatusText : String
  zonesDecode : Except String (List Zone)
  recordsTransport : Option String
  recordsDecode : Except String (List Entry)
  deleteTransport : String → Option String
  deleteStatus : String → Nat

/-- The ways `CleanUp` can terminate. `panicIndexOutOfRange` models the Go
runtime panic raised by `zRespBody.Zones[0]` (`main.go:277`) when the
decoded zone list is empty: it is a process abort, not a returned error. -/
inductive CleanUpResult where
  | configError (msg : String)
  | transportError (msg : String)
  | unexpectedStatus (status : String)
  | decodeError (msg : String)
  | panicIndexOutOfRange
  | recordsTransportError (msg : String)
  | recordsDecodeError (msg : String)
  | success
deriving DecidableEq, Repr

/-- The record-deletion scan of `CleanUp` (`main.go:308-339`): for each
decoded record whose type is `TXT`, whose name is the computed label and
whose value is the challenge key, a DELETE for its id is issued; failures
of individual DELETEs are logged and skipped, never propagated. -/
def cleanUpScan (name key apiKey : String) : List Entry → List Action
  | [] => []
  | e :: rest =>
    if e.type = "TXT" ∧ e.name = name ∧ e.value = key then
      Action.deleteRecord e.id apiKey :: cleanUpScan name key apiKey rest
    else
      cleanUpScan name key apiKey rest

/-- Model of `CleanUp` (`main.go:236-341`): load config, split the domain,
GET the zone list (transport / status-200 / decode checks). There is no
zone-count check: the code then evaluates `zRespBody.Zones[0].ZoneID` as a
log argument, which panics on an empty list and silently picks the first
zone otherwise. It then GETs the zone's records and runs `cleanUpScan`;
once the scan completes it returns success. -/
def CleanUp (ch : ChallengeRequest) (env : CleanUpEnv) :
    CleanUpResult × List Action :=
  match loadConfig ch.config with
  | .error e => (.configError e, [])
  | .ok cfg =>
    let name := (getDomainAndEntry ch).1
    let zone := (getDomainAndEntry ch).2
    let acts := [Action.getZones zone cfg.apiKey]
    match env.zonesTransport with
    | some e => (.transportError e, acts)
    | none =>
      if env.zonesStatus ≠ 200 then
        (.unexpectedStatus env.zonesStatusText, acts)
      else
        match env.zonesDecode with
        | .error e => (.decodeError e, acts)
        | .ok zones =>
          match zones with
          | [] => (.panicIndexOutOfRange, acts)
          | z :: _ =>
            let acts2 := acts ++ [Action.getRecords z.zoneID cfg.apiKey]
            match env.recordsTransport with
            | some e => (.recordsTransportError e, acts2)
            | none =>
              match env.recordsDecode with
              | .error e => (.recordsDecodeError e, acts2)
              | .ok records =>
                (.success, acts2 ++ cleanUpScan name ch.key cfg.apiKey records)

/-! Concrete fixtures used by the closed theorems and witnesses below. -/

/-- A concrete challenge request: nil config, FQDN `_acme-challenge.example.com.`
inside zone `example.com.`, validation key `KEY`. -/
def chEx : ChallengeRequest :=
  { dnsName := "example.com", resourceNamespace := "default",
    resolvedFQDN := "_acme-challenge.example.com.",
    resolvedZone := "example.com.", key := "KEY", config := none }

/-- Present environment where every call succeeds and the zone query decodes
to exactly one zone. -/
def presentEnvOneZone : PresentEnv :=
  { zonesTransport := none, zonesStatus := 200, zonesStatusText := "200 OK",
    zonesDecode := .ok [⟨"z1", "example.com"⟩],
    postTransport := none, postStatus := 201, postStatusText := "201 Created" }

/-- Present environment where the zone query answers HTTP 500. -/
def presentEnv500 : PresentEnv :=
  { zonesTransport := none, zonesStatus := 500,
    zonesStatusText := "500 Internal Server Error",
    zonesDecode := .ok [⟨"z1", "example.com"⟩],
    postTransport := none, postStatus := 201, postStatusText := "201 Created" }

/-- CleanUp environment where the zone query succeeds with HTTP 200 but its
body decodes to an empty zone list. -/
def cleanUpEnvEmptyZones : CleanUpEnv :=
  { zonesTransport := none, zonesStatus := 200, zonesStatusText := "200 OK",
    zonesDecode := .ok [],
    recordsTransport := none, recordsDecode := .ok [],
    deleteTransport := fun _ => none, deleteStatus := fun _ => 200 }

/-- CleanUp environment where the zone query decodes to two zones and the
record listing of the first zone holds one matching TXT record. -/
def cleanUpEnvTwoZones : CleanUpEnv :=
  { zonesTransport := none, zonesStatus := 200, zonesStatusText := "200 OK",
    zonesDecode := .ok [⟨"z1", "example.com"⟩, ⟨"z2", "example.com"⟩],
    recordsTransport := none,
    recordsDecode := .ok [⟨"r1", "_acme-challenge", 300, "TXT", "KEY", "z1"⟩],
    deleteTransport := fun _ => none, deleteStatus := fun _ => 200 }

/-- CleanUp environment with one zone, one matching TXT record, and every
DELETE call failing at the transport layer. -/
def cleanUpEnvDeleteFails : CleanUpEnv :=
  { zonesTransport := none, zonesStatus := 200, zonesStatusText := "200 OK",
    zonesDecode := .ok [⟨"z1", "example.com"⟩],
    recordsTransport := none,
    recordsDecode := .ok [⟨"r1", "_acme-challenge", 300, "TXT", "KEY", "z1"⟩],
    deleteTransport := fun _ => some "connection refused",
    deleteStatus := fun _ => 0 }

/-- CleanUp environment where the zone query answers HTTP 500. -/
def cleanUpEnv500 : CleanUpEnv :=
  { zonesTransport := none, zonesStatus := 500,
    zonesStatusText := "500 Internal Server Error",
    zonesDecode := .ok [⟨"z1", "example.com"⟩],
    recordsTransport := none, recordsDecode := .ok [],
    deleteTransport := fun _ => none, deleteStatus := fun _ => 200 }

/-! Claims C1 and C2: the missing zone-count check in CleanUp. -/

/-- Claim C1: Present and CleanUp are supposed to return an error value on
every failure path and never panic; in particular CleanUp with an empty
decoded zone list should return an error. The code violates this: CleanUp
evaluates `zRespBody.Zones[0].ZoneID` without any length check, so an empty
zone list aborts the process with an index-out-of-range panic instead of
returning an error. -/
theorem c1_cleanup_empty_zone_list_panics :
    (CleanUp chEx cleanUpEnvEmptyZones).1 = CleanUpResult.panicIndexOutOfRange := by
  decide

/-- Claim C2: zone resolution is supposed to fail whenever the decoded zone
list does not have length exactly 1, in both Present and CleanUp. The code
violates the CleanUp half: with two decoded zones CleanUp raises no error,
silently uses the first zone, and proceeds to record listing and deletion. -/
theorem c2_cleanup_two_zones_proceeds :
    (CleanUp chEx cleanUpEnvTwoZones).1 = CleanUpResult.success ∧
    (CleanUp chEx cleanUpEnvTwoZones).2 =
      [Action.getZones "example.com" "", Action.getRecords "z1" "",
       Action.deleteRecord "r1" ""] := by
  decide

/-! Helper lemmas about `trimSuffix` and the deletion scan. -/

/-- Removing an exact suffix with `trimSuffix` leaves the prefix. -/
theorem trimSuffix_append (a b : String) : trimSuffix (a ++ b) b = a := by
  obtain ⟨la⟩ := a
  obtain ⟨lb⟩ := b
  simp [trimSuffix, List.isSuffixOf_iff_suffix, List.take_left]

/-- `trimSuffix` leaves a string unchanged when the suffix does not match. -/
theorem trimSuffix_of_not_suffix (a b : String) (h : ¬ b.data <:+ a.data) :
    trimSuffix a b = a := by
  simp [trimSuffix, List.isSuffixOf_iff_suffix, h]

/-- On a dot-terminated string, `trimSuffix · "."` drops exactly the last
character. -/
theorem trimSuffix_dot (Z : String) (hdot : ['.'] <:+ Z.data) :
    trimSuffix Z "." = String.mk Z.data.dropLast := by
  have hd : ("." : String).data = ['.'] := rfl
  simp only [trimSuffix, hd, List.isSuffixOf_iff_suffix, hdot, if_pos]
  rw [List.dropLast_eq_take]
  simp

/-- Membership of a DELETE action in the deletion scan: a delete for id
`rid` is issued exactly when some scanned record with id `rid` matches the
(type, name, value) triple. -/
theorem cleanUpScan_mem (name key apiKey rid : String) (rs : List Entry) :
    Action.deleteRecord rid apiKey ∈ cleanUpScan name key apiKey rs ↔
      ∃ e ∈ rs, e.type = "TXT" ∧ e.name = name ∧ e.value = key ∧ e.id = rid := by
  induction rs with
  | nil => simp [cleanUpScan]
  | cons e rest ih =>
    simp only [cleanUpScan]
    split
    · rename_i h
      simp only [List.mem_cons, Action.deleteRecord.injEq, ih]
      aesop
    · rename_i h
      simp only [ih, List.mem_cons]
      aesop

/-! Claim C3: the serialized record-creation body. -/

/-- Claim C3 as stated is false at this concrete Present call: the claim
says the POST body contains the id field as the empty string, but the `id`
field of `Entry` carries `omitempty`, so `json.Marshal` drops the empty id
and the body sent differs from the claimed JSON object. -/
theorem c3_counterexample_post_body_has_no_id :
    (Present chEx presentEnvOneZone).2 =
      [Action.getZones "example.com" "",
       Action.postRecord
         "\x7b\"name\":\"_acme-challenge\",\"ttl\":300,\"type\":\"TXT\",\"value\":\"KEY\",\"zone_id\":\"z1\"\x7d"
         ""] ∧
    "\x7b\"name\":\"_acme-challenge\",\"ttl\":300,\"type\":\"TXT\",\"value\":\"KEY\",\"zone_id\":\"z1\"\x7d" ≠
      "\x7b\"id\":\"\",\"name\":\"_acme-challenge\",\"ttl\":300,\"type\":\"TXT\",\"value\":\"KEY\",\"zone_id\":\"z1\"\x7d" := by
  decide

/-- Claim C3 (amended): for every Present call that reaches record
creation, the serialized POST body is exactly the JSON object with fields
name, ttl (300), type ("TXT"), value (the challenge key) and zone_id (the
resolved zone id), in that order, with the id field omitted entirely
because the empty id is dropped by its `omitempty` tag. -/
theorem c3_present_post_body_omits_empty_id (ch : ChallengeRequest)
    (env : PresentEnv) (cfg : hetznerDNSProviderConfig) (z : Zone)
    (hcfg : loadConfig ch.config = .ok cfg)
    (ht : env.zonesTransport = none)
    (hs : env.zonesStatus = 200)
    (hz : env.zonesDecode = .ok [z]) :
    (Present ch env).2 =
      [Action.getZones (getDomainAndEntry ch).2 cfg.apiKey,
       Action.postRecord
         ("\x7b\"name\":" ++ jsonQuote (getDomainAndEntry ch).1 ++
          ",\"ttl\":300,\"type\":\"TXT\",\"value\":" ++ jsonQuote ch.key ++
          ",\"zone_id\":" ++ jsonQuote z.zoneID ++ "\x7d") cfg.apiKey] := by
  cases hp : env.postTransport with
  | none =>
    simp only [Present, hcfg, ht, hs, hz, hp]
    simp
    apply String.ext
    simp [marshalEntry, String.data_append]
    rfl
  | some e =>
    simp only [Present, hcfg, ht, hs, hz, hp]
    simp
    apply String.ext
    simp [marshalEntry, String.data_append]
    rfl

/-- Witness for C3 (amended), at the concrete fixture challenge. -/
theorem c3_witness_post_body :
    (Present chEx presentEnvOneZone).2 =
      [Action.getZones "example.com" "",
       Action.postRecord
         "\x7b\"name\":\"_acme-challenge\",\"ttl\":300,\"type\":\"TXT\",\"value\":\"KEY\",\"zone_id\":\"z1\"\x7d"
         ""] := by
  rw [c3_present_post_body_omits_empty_id chEx presentEnvOneZone ⟨""⟩
    ⟨"z1", "example.com"⟩ rfl rfl rfl rfl]
  decide

/-! Claim C4: the domain splitter on well-formed input. -/

/-- Claim C4: for every dot-terminated zone string Z and every fqdn
F = label ++ "." ++ Z, getDomainAndEntry applied to a challenge carrying
(F, Z) returns the pair (label, Z with its one trailing dot removed). -/
theorem c4_getDomainAndEntry_splits (ch : ChallengeRequest) (label Z : String)
    (hF : ch.resolvedFQDN = label ++ "." ++ Z)
    (hZ : ch.resolvedZone = Z)
    (hdot : ['.'] <:+ Z.data) :
    getDomainAndEntry ch = (label, String.mk Z.data.dropLast) := by
  simp only [getDomainAndEntry, hF, hZ]
  rw [trimSuffix_append (label ++ ".") Z, trimSuffix_append label ".",
    trimSuffix_dot Z hdot]

/-- Witness for C4 at label `_acme-challenge` and zone `example.com.`. -/
theorem c4_witness_split_example :
    getDomainAndEntry chEx = ("_acme-challenge", String.mk ("example.com.").data.dropLast) ∧
    String.mk ("example.com.").data.dropLast = "example.com" :=
  ⟨c4_getDomainAndEntry_splits chEx "_acme-challenge" "example.com." rfl rfl
    (by decide), by decide⟩

/-! Claim C5: the deletion scan deletes exactly the matching records. -/

/-- Claim C5: for every record list returned by the zone-scoped query,
CleanUp issues a DELETE for a record id if and only if some listed record
with that id has type "TXT", name equal to the computed label, and value
equal to the challenge key; no delete is issued for any non-matching
record. -/
theorem c5_cleanup_deletes_iff_match (ch : ChallengeRequest) (env : CleanUpEnv)
    (cfg : hetznerDNSProviderConfig) (z : Zone) (zs : List Zone) (rs : List Entry)
    (hcfg : loadConfig ch.config = .ok cfg)
    (ht : env.zonesTransport = none) (hs : env.zonesStatus = 200)
    (hz : env.zonesDecode = .ok (z :: zs))
    (hrt : env.recordsTransport = none) (hr : env.recordsDecode = .ok rs)
    (rid : String) :
    (Action.deleteRecord rid cfg.apiKey ∈ (CleanUp ch env).2 ↔
      ∃ e ∈ rs, e.type = "TXT" ∧ e.name = (getDomainAndEntry ch).1 ∧
        e.value = ch.key ∧ e.id = rid) := by
  simp [CleanUp, hcfg, ht, hs, hz, hrt, hr, cleanUpScan_mem]

/-- Witness for C5: the matching TXT record in the fixture is deleted. -/
theorem c5_witness_matching_record_deleted :
    Action.deleteRecord "r1" "" ∈ (CleanUp chEx cleanUpEnvTwoZones).2 := by
  rw [c5_cleanup_deletes_iff_match chEx cleanUpEnvTwoZones ⟨""⟩
    ⟨"z1", "example.com"⟩ [⟨"z2", "example.com"⟩]
    [⟨"r1", "_acme-challenge", 300, "TXT", "KEY", "z1"⟩]
    rfl rfl rfl rfl rfl rfl "r1"]
  exact ⟨⟨"r1", "_acme-challenge", 300, "TXT", "KEY", "z1"⟩, by simp, rfl, rfl, rfl, rfl⟩

/-! Claim C6: Present ignores the HTTP status of the record creation. -/

/-- Claim C6: for every Present call whose record-creation POST is sent
successfully, Present returns success regardless of the HTTP status of the
creation response (the environment's `postStatus` is arbitrary and unread);
only a transport failure of the POST makes Present return an error. -/
theorem c6_present_ignores_post_status (ch : ChallengeRequest)
    (env : PresentEnv) (cfg : hetznerDNSProviderConfig) (z : Zone)
    (hcfg : loadConfig ch.config = .ok cfg)
    (ht : env.zonesTransport = none) (hs : env.zonesStatus = 200)
    (hz : env.zonesDecode = .ok [z]) :
    (env.postTransport = none → (Present ch env).1 = PresentResult.success) ∧
    (∀ e, env.postTransport = some e →
      (Present ch env).1 = PresentResult.postTransportError e) := by
  constructor
  · intro hp
    simp [Present, hcfg, ht, hs, hz, hp]
  · intro e hp
    simp [Present, hcfg, ht, hs, hz, hp]

/-- Witness for C6 at the concrete fixture (POST answered HTTP 201). -/
theorem c6_witness_success :
    (Present chEx presentEnvOneZone).1 = PresentResult.success :=
  (c6_present_ignores_post_status chEx presentEnvOneZone ⟨""⟩
    ⟨"z1", "example.com"⟩ rfl rfl rfl rfl).1 rfl

/-! Claim C7: CleanUp succeeds once the scan completes. -/

/-- Claim C7: every CleanUp call that completes the record scan returns
success, for an arbitrary record list (including the empty one) and
regardless of the outcome of the individual DELETE calls (the
environment's `deleteTransport` and `deleteStatus` are arbitrary and
unread). -/
theorem c7_cleanup_scan_completes_success (ch : ChallengeRequest)
    (env : CleanUpEnv) (cfg : hetznerDNSProviderConfig)
    (z : Zone) (zs : List Zone) (rs : List Entry)
    (hcfg : loadConfig ch.config = .ok cfg)
    (ht : env.zonesTransport = none) (hs : env.zonesStatus = 200)
    (hz : env.zonesDecode = .ok (z :: zs))
    (hrt : env.recordsTransport = none) (hr : env.recordsDecode = .ok rs) :
    (CleanUp ch env).1 = CleanUpResult.success := by
  simp [CleanUp, hcfg, ht, hs, hz, hrt, hr]

/-- Witness for C7: CleanUp succeeds although the DELETE of the matching
record fails at the transport layer. -/
theorem c7_witness_delete_failures_ignored :
    (CleanUp chEx cleanUpEnvDeleteFails).1 = CleanUpResult.success :=
  c7_cleanup_scan_completes_success chEx cleanUpEnvDeleteFails ⟨""⟩
    ⟨"z1", "example.com"⟩ []
    [⟨"r1", "_acme-challenge", 300, "TXT", "KEY", "z1"⟩]
    rfl rfl rfl rfl rfl rfl

/-! Claim C8: a non-200 zone query aborts both operations. -/

/-- Claim C8: whenever the zone query returns a non-200 HTTP status,
Present and CleanUp both fail with the unexpected-status error and issue
no record operation: the only request sent is the zone query itself. -/
theorem c8_zone_status_not_200_aborts (ch : ChallengeRequest)
    (envP : PresentEnv) (envC : CleanUpEnv) (cfg : hetznerDNSProviderConfig)
    (hcfg : loadConfig ch.config = .ok cfg)
    (hpt : envP.zonesTransport = none) (hps : envP.zonesStatus ≠ 200)
    (hct : envC.zonesTransport = none) (hcs : envC.zonesStatus ≠ 200) :
    (Present ch envP).1 = PresentResult.unexpectedStatus envP.zonesStatusText ∧
    (Present ch envP).2 = [Action.getZones (getDomainAndEntry ch).2 cfg.apiKey] ∧
    (CleanUp ch envC).1 = CleanUpResult.unexpectedStatus envC.zonesStatusText ∧
    (CleanUp ch envC).2 = [Action.getZones (getDomainAndEntry ch).2 cfg.apiKey] := by
  refine ⟨?_, ?_, ?_, ?_⟩ <;> simp [Present, CleanUp, hcfg, hpt, hps, hct, hcs]

/-- Witness for C8 at a zone query answering HTTP 500. -/
theorem c8_witness_http_500 :
    (Present chEx presentEnv500).1 =
      PresentResult.unexpectedStatus "500 Internal Server Error" ∧
    (Present chEx presentEnv500).2 = [Action.getZones "example.com" ""] ∧
    (CleanUp chEx cleanUpEnv500).1 =
      CleanUpResult.unexpectedStatus "500 Internal Server Error" ∧
    (CleanUp chEx cleanUpEnv500).2 = [Action.getZones "example.com" ""] :=
  c8_zone_status_not_200_aborts chEx presentEnv500 cleanUpEnv500 ⟨""⟩
    rfl rfl (by decide) rfl (by decide)

/-! Claim C9: the label when the zone is not a suffix of the FQDN. -/

/-- Claim C9: whenever the resolved zone is not a suffix of the resolved
FQDN, the computed label is the unmodified resolved FQDN with exactly one
trailing dot removed, and no error is signalled (the splitter is total). -/
theorem c9_label_when_zone_not_suffix (ch : ChallengeRequest)
    (hns : ¬ ch.resolvedZone.data <:+ ch.resolvedFQDN.data)
    (hdot : ['.'] <:+ ch.resolvedFQDN.data) :
    (getDomainAndEntry ch).1 = String.mk ch.resolvedFQDN.data.dropLast := by
  simp only [getDomainAndEntry]
  rw [trimSuffix_of_not_suffix _ _ hns, trimSuffix_dot _ hdot]

/-- Challenge whose resolved zone is unrelated to its resolved FQDN. -/
def chExBadZone : ChallengeRequest :=
  { dnsName := "example.com", resourceNamespace := "default",
    resolvedFQDN := "_acme-challenge.example.com.",
    resolvedZone := "other.org.", key := "KEY", config := none }

/-- Witness for C9 at an unrelated zone. -/
theorem c9_witness_not_suffix :
    (getDomainAndEntry chExBadZone).1 =
      String.mk ("_acme-challenge.example.com.").data.dropLast ∧
    String.mk ("_acme-challenge.example.com.").data.dropLast =
      "_acme-challenge.example.com" :=
  ⟨c9_label_when_zone_not_suffix chExBadZone (by decide) (by decide), by decide⟩

/-! Claim C10: a nil configuration payload. -/

/-- Claim C10: loadConfig on a nil configuration payload returns the config
with an empty API key and no error; consequently Present and CleanUp with a
nil config never fail with a configuration error and issue their zone query
carrying the empty API key. -/
theorem c10_nil_config_empty_api_key (ch : ChallengeRequest)
    (envP : PresentEnv) (envC : CleanUpEnv)
    (h : ch.config = none) :
    loadConfig ch.config = .ok ⟨""⟩ ∧
    (∀ msg, (Present ch envP).1 ≠ PresentResult.configError msg) ∧
    (Present ch envP).2.head? = some (Action.getZones (getDomainAndEntry ch).2 "") ∧
    (∀ msg, (CleanUp ch envC).1 ≠ CleanUpResult.configError msg) ∧
    (CleanUp ch envC).2.head? = some (Action.getZones (getDomainAndEntry ch).2 "") := by
  refine ⟨by simp [h, loadConfig], ?_, ?_, ?_, ?_⟩
  · intro msg
    simp only [Present, h, loadConfig]
    repeat' split
    all_goals simp
  · simp only [Present, h, loadConfig]
    repeat' split
    all_goals simp
  · intro msg
    simp only [CleanUp, h, loadConfig]
    repeat' split
    all_goals simp
  · simp only [CleanUp, h, loadConfig]
    repeat' split
    all_goals simp

/-- Witness for C10 at the concrete fixtures. -/
theorem c10_witness_nil_config :
    loadConfig chEx.config = .ok ⟨""⟩ ∧
    (∀ msg, (Present chEx presentEnvOneZone).1 ≠ PresentResult.configError msg) ∧
    (Present chEx presentEnvOneZone).2.head? =
      some (Action.getZones (getDomainAndEntry chEx).2 "") ∧
    (∀ msg, (CleanUp chEx cleanUpEnvTwoZones).1 ≠ CleanUpResult.configError msg) ∧
    (CleanUp chEx cleanUpEnvTwoZones).2.head? =
      some (Action.getZones (getDomainAndEntry chEx).2 "") :=
  c10_nil_config_empty_api_key chEx presentEnvOneZone cleanUpEnvTwoZones rfl

end HetznerWebhook
